import Mathlib

/-!
Shallow embedding of the RISC virtual machine (Python sources under `src/`)
used to check the natural-language specification against the code.

Conventions used throughout:
* Python arbitrary-precision non-negative integers are modelled as `ℕ`;
  values that may be negative (signed views, raw immediates, addresses fed
  to the memory API) are modelled as `ℤ`.
* Python `v & 0xFFFFFFFF` on a non-negative `v` equals `v % 2 ^ 32`; on a
  possibly negative Python int it is the Euclidean remainder (Python's `%`
  on a positive modulus), which is `Int.emod` in Lean.
* Python string primitives (`strip`, `lower`, `upper`, `int(...)`,
  `re.split`) are modelled by structurally recursive functions on
  `List Char` so that every parser evaluates inside the kernel.
* Python exceptions are modelled with `Except`: `AssemblerError` and
  `ValueError` carry their message string, memory errors carry a `MemErr`.
-/

deriving instance DecidableEq for Except

namespace RiscVM

/-- Whether a modelled Python call returned normally (`Except.ok`). -/
def resultOk {ε α : Type _} : Except ε α → Bool
  | .ok _ => true
  | .error _ => false

/-! ### Python string primitives -/

/-- ASCII whitespace as recognised by Python's `str.strip` / `\s`. -/
def isPySpace (c : Char) : Bool :=
  c = ' ' ∨ c = '\t' ∨ c = '\n' ∨ c = '\r' ∨ c.toNat = 11 ∨ c.toNat = 12

/-- Python `str.strip()` (ASCII whitespace suffices for this code base). -/
def pyStrip (s : String) : String :=
  String.mk (((s.toList.dropWhile isPySpace).reverse.dropWhile isPySpace).reverse)

/-- Python `str.lower()` (the sources only feed it ASCII). -/
def pyLower (s : String) : String :=
  String.mk (s.toList.map Char.toLower)

/-- Python `str.upper()` (the sources only feed it ASCII). -/
def pyUpper (s : String) : String :=
  String.mk (s.toList.map Char.toUpper)

/-- Decimal digit-string to number; `none` unless non-empty and all digits. -/
def decDigits? : List Char → Option ℕ
  | [] => none
  | cs => cs.foldl (fun acc c =>
      match acc with
      | some n => if '0' ≤ c ∧ c ≤ '9' then some (n * 10 + (c.toNat - '0'.toNat)) else none
      | none => none) (some 0)

/-- Python `int(s)` for an already-stripped string: an optional `-` sign
followed by decimal digits.  (Python additionally accepts `+` and grouping
underscores; the repository never uses those forms.) -/
def pyInt? (s : String) : Option ℤ :=
  match s.toList with
  | '-' :: ds => (decDigits? ds).map (fun n => -(n : ℤ))
  | ds => (decDigits? ds).map (fun n => (n : ℤ))

/-- Separator class of the operand splitter `re.split(r'[,\s]+', line)`. -/
def isSepChar (c : Char) : Bool := c = ',' ∨ isPySpace c

/-- Worker for `tokens`: split on runs of separators, dropping empties. -/
def tokensAux : List Char → List Char → List String
  | [], acc => if acc = [] then [] else [String.mk acc.reverse]
  | c :: rest, acc =>
    if isSepChar c then
      if acc = [] then tokensAux rest [] else String.mk acc.reverse :: tokensAux rest []
    else tokensAux rest (c :: acc)

/-- The `re.split(r'[,\s]+', line)` on a stripped line: the non-empty pieces
between runs of commas/whitespace. -/
def tokens (line : String) : List String := tokensAux line.toList []

/-! ### src/src/instruction.py -/

/-- The `InstructionType` enum from src/src/instruction.py. -/
inductive InstructionType where
  | R | I | S | B | J | U | HALT
deriving DecidableEq, Repr

/-- A parsed instruction record (class `Instruction`).  Fields default to
`none` exactly as the Python constructor defaults them to `None`.  The
`rd`/`rs1`/`rs2` fields are `ℤ` because the CSR-immediate forms store a
parsed immediate in `rs1`. -/
structure Instruction where
  opcode : String
  type : InstructionType
  rd : Option ℤ := none
  rs1 : Option ℤ := none
  rs2 : Option ℤ := none
  imm : Option ℤ := none
  label : Option String := none
deriving DecidableEq, Repr

/-- The `INSTRUCTION_SET` dictionary, entry for entry (src/src/instruction.py
lines 77–141).  Note that it contains no M-extension mnemonics
(MUL/DIV/DIVU/REM/REMU), no WFI, and no LA/J/CALL/RET. -/
def INSTRUCTION_SET : List (String × InstructionType) := [
  ("ADD", .R), ("SUB", .R), ("AND", .R), ("OR", .R), ("XOR", .R),
  ("SLL", .R), ("SRL", .R), ("SRA", .R), ("SLT", .R), ("SLTU", .R),
  ("ADDI", .I), ("ANDI", .I), ("ORI", .I), ("XORI", .I),
  ("SLLI", .I), ("SRLI", .I), ("SRAI", .I), ("SLTI", .I), ("SLTIU", .I),
  ("LW", .I), ("LB", .I), ("LH", .I), ("LBU", .I), ("LHU", .I),
  ("SW", .S), ("SB", .S), ("SH", .S),
  ("BEQ", .B), ("BNE", .B), ("BLT", .B), ("BGE", .B), ("BLTU", .B), ("BGEU", .B),
  ("JAL", .J), ("JALR", .J),
  ("LUI", .U), ("AUIPC", .U),
  ("CSRRW", .I), ("CSRRS", .I), ("CSRRC", .I),
  ("CSRRWI", .I), ("CSRRSI", .I), ("CSRRCI", .I),
  ("HALT", .HALT), ("MRET", .HALT), ("NOP", .I)]

/-- The alias table inside `parse_register` (src/src/instruction.py).  It
lacks t0–t6, s1–s11 and a0–a7 (compare `CPU._parse_register` in cpu.py,
which has the complete ABI table). -/
def REGISTER_ALIASES : List (String × ℕ) :=
  [("zero", 0), ("ra", 1), ("sp", 2), ("gp", 3), ("tp", 4), ("fp", 8), ("s0", 8)]

/-- The `parse_register` from src/src/instruction.py: strip + lowercase, drop a
leading `x`, look the result up in the alias table, else try to read it as
an integer in `[0, 32)`.  Python's `int(...)`-failure and the out-of-range
fall-through both end in `raise ValueError(f"Invalid register: {reg_str}")`. -/
def parse_register (reg_str : String) : Except String ℕ :=
  let r0 := pyLower (pyStrip reg_str)
  let r := match r0.toList with
    | 'x' :: rest => String.mk rest
    | _ => r0
  match REGISTER_ALIASES.lookup r with
  | some n => .ok n
  | none =>
    match pyInt? r with
    | some i => if 0 ≤ i ∧ i < 32 then .ok i.toNat else .error ("Invalid register: " ++ r)
    | none => .error ("Invalid register: " ++ r)

/-- One digit in the given base, for Python's `int(s, 16)` / `int(s, 2)`. -/
def digitInBase (base : ℕ) (c : Char) : Option ℕ :=
  let v :=
    if '0' ≤ c ∧ c ≤ '9' then some (c.toNat - '0'.toNat)
    else if 'a' ≤ c ∧ c ≤ 'f' then some (c.toNat - 'a'.toNat + 10)
    else if 'A' ≤ c ∧ c ≤ 'F' then some (c.toNat - 'A'.toNat + 10)
    else none
  match v with
  | some d => if d < base then some d else none
  | none => none

/-- Digit-string parser in a base, rejecting the empty string, mirroring
Python's `int(s, base)` after the `0x`/`0b` prefix has been removed. -/
def parseDigitsInBase (base : ℕ) (cs : List Char) : Option ℕ :=
  match cs with
  | [] => none
  | _ =>
    cs.foldl (fun acc c =>
      match acc, digitInBase base c with
      | some n, some d => some (n * base + d)
      | _, _ => none) (some 0)

/-- Two-character prefix test (for the `0x` / `0b` checks). -/
def startsWith2 (cs : List Char) (a b : Char) : Bool :=
  match cs with
  | x :: y :: _ => x = a ∧ y = b
  | _ => false

/-- The `parse_immediate` from src/src/instruction.py: strip, then dispatch on a
`0x`/`0X` or `0b`/`0B` prefix, else decimal via Python `int`. -/
def parse_immediate (imm_str : String) : Except String ℤ :=
  let t := pyStrip imm_str
  let cs := t.toList
  if startsWith2 cs '0' 'x' ∨ startsWith2 cs '0' 'X' then
    match parseDigitsInBase 16 (cs.drop 2) with
    | some n => .ok n
    | none => .error ("invalid literal: " ++ t)
  else if startsWith2 cs '0' 'b' ∨ startsWith2 cs '0' 'B' then
    match parseDigitsInBase 2 (cs.drop 2) with
    | some n => .ok n
    | none => .error ("invalid literal: " ++ t)
  else
    match pyInt? t with
    | some i => .ok i
    | none => .error ("invalid literal: " ++ t)

/-- The `parse_memory_operand` from src/src/instruction.py: `offset(reg)` with an
optional offset.  Python takes the text before the first `(` and between
`(` and the first `)`; we take the first `)` after the `(`, which agrees
with Python whenever the operand is well-formed. -/
def parse_memory_operand (operand : String) : Except String (ℤ × ℕ) :=
  let op := pyStrip operand
  let cs := op.toList
  if ¬ (cs.contains '(' ∧ cs.contains ')') then
    .error ("Invalid memory operand: " ++ op)
  else
    let offsetStr := pyStrip (String.mk (cs.takeWhile (· ≠ '(')))
    let regStr := pyStrip (String.mk (((cs.dropWhile (· ≠ '(')).drop 1).takeWhile (· ≠ ')')))
    do
      let offset ← if offsetStr = "" then pure 0 else parse_immediate offsetStr
      let reg ← parse_register regStr
      pure (offset, reg)

/-! ### src/src/assembler.py — `Assembler._parse_instruction` -/

/-- The `Assembler._parse_instruction` (src/src/assembler.py lines 265–417).
The line is split on `[,\s]+`, the first token upper-cased and looked up in
`INSTRUCTION_SET`; an unknown mnemonic raises
`AssemblerError(f"Unknown instruction: {opcode}")`.  All further operand
parsing follows the source branch for branch, including the dead `LA`
branch (dead because `LA` is absent from `INSTRUCTION_SET`). -/
def parse_instruction_line (line : String) : Except String Instruction :=
  let parts := tokens line
  let opcode := pyUpper (parts.headD "")
  match INSTRUCTION_SET.lookup opcode with
  | none => .error ("Unknown instruction: " ++ opcode)
  | some inst_type =>
    match inst_type with
    | .HALT => .ok { opcode := opcode, type := .HALT }
    | .R =>
      if parts.length < 4 then .error ("R-type instruction requires 3 operands: " ++ line)
      else do
        let rd ← parse_register (parts.getD 1 "")
        let rs1 ← parse_register (parts.getD 2 "")
        let rs2 ← parse_register (parts.getD 3 "")
        pure { opcode := opcode, type := .R,
               rd := some (rd : ℤ), rs1 := some (rs1 : ℤ), rs2 := some (rs2 : ℤ) }
    | .I =>
      if opcode = "LA" then
        if parts.length < 3 then .error ("LA instruction requires 2 operands: " ++ line)
        else do
          let rd ← parse_register (parts.getD 1 "")
          pure { opcode := opcode, type := .I, rd := some (rd : ℤ),
                 label := some (parts.getD 2 "") }
      else if opcode ∈ ["LW", "LB", "LH", "LBU", "LHU"] then
        if parts.length < 3 then .error ("Load instruction requires 2 operands: " ++ line)
        else do
          let rd ← parse_register (parts.getD 1 "")
          let mem_operand := String.join (parts.drop 2)
          let or ← parse_memory_operand mem_operand
          pure { opcode := opcode, type := .I, rd := some (rd : ℤ),
                 rs1 := some (or.2 : ℤ), imm := some or.1 }
      else if opcode = "NOP" then
        .ok { opcode := "ADDI", type := .I, rd := some 0, rs1 := some 0, imm := some 0 }
      else if opcode ∈ ["CSRRW", "CSRRS", "CSRRC"] then
        if parts.length < 4 then .error ("CSR instruction requires 3 operands: " ++ line)
        else do
          let rd ← parse_register (parts.getD 1 "")
          let csr ← parse_immediate (parts.getD 2 "")
          let rs1 ← parse_register (parts.getD 3 "")
          pure { opcode := opcode, type := .I, rd := some (rd : ℤ),
                 rs1 := some (rs1 : ℤ), imm := some csr }
      else if opcode ∈ ["CSRRWI", "CSRRSI", "CSRRCI"] then
        if parts.length < 4 then
          .error ("CSR immediate instruction requires 3 operands: " ++ line)
        else do
          let rd ← parse_register (parts.getD 1 "")
          let csr ← parse_immediate (parts.getD 2 "")
          let uimm ← parse_immediate (parts.getD 3 "")
          pure { opcode := opcode, type := .I, rd := some (rd : ℤ),
                 rs1 := some uimm, imm := some csr }
      else
        if parts.length < 4 then .error ("I-type instruction requires 3 operands: " ++ line)
        else do
          let rd ← parse_register (parts.getD 1 "")
          let rs1 ← parse_register (parts.getD 2 "")
          let target := parts.getD 3 ""
          match parse_immediate target with
          | .ok imm => pure { opcode := opcode, type := .I, rd := some (rd : ℤ),
                              rs1 := some (rs1 : ℤ), imm := some imm }
          | .error _ => pure { opcode := opcode, type := .I, rd := some (rd : ℤ),
                               rs1 := some (rs1 : ℤ), label := some target }
    | .S =>
      if parts.length < 3 then .error ("Store instruction requires 2 operands: " ++ line)
      else do
        let rs2 ← parse_register (parts.getD 1 "")
        let mem_operand := String.join (parts.drop 2)
        let or ← parse_memory_operand mem_operand
        pure { opcode := opcode, type := .S, rs1 := some (or.2 : ℤ),
               rs2 := some (rs2 : ℤ), imm := some or.1 }
    | .B =>
      if parts.length < 4 then .error ("Branch instruction requires 3 operands: " ++ line)
      else do
        let rs1 ← parse_register (parts.getD 1 "")
        let rs2 ← parse_register (parts.getD 2 "")
        let target := parts.getD 3 ""
        match parse_immediate target with
        | .ok imm => pure { opcode := opcode, type := .B, rs1 := some (rs1 : ℤ),
                            rs2 := some (rs2 : ℤ), imm := some imm }
        | .error _ => pure { opcode := opcode, type := .B, rs1 := some (rs1 : ℤ),
                             rs2 := some (rs2 : ℤ), label := some target }
    | .J =>
      if opcode = "JAL" then
        if parts.length < 3 then .error ("JAL requires 2 operands: " ++ line)
        else do
          let rd ← parse_register (parts.getD 1 "")
          let target := parts.getD 2 ""
          match parse_immediate target with
          | .ok imm => pure { opcode := opcode, type := .J, rd := some (rd : ℤ),
                              imm := some imm }
          | .error _ => pure { opcode := opcode, type := .J, rd := some (rd : ℤ),
                               label := some target }
      else if opcode = "JALR" then
        if parts.length < 4 then .error ("JALR requires 3 operands: " ++ line)
        else do
          let rd ← parse_register (parts.getD 1 "")
          let rs1 ← parse_register (parts.getD 2 "")
          let imm ← parse_immediate (parts.getD 3 "")
          pure { opcode := opcode, type := .J, rd := some (rd : ℤ),
                 rs1 := some (rs1 : ℤ), imm := some imm }
      else .error ("Could not parse instruction: " ++ line)
    | .U =>
      if parts.length < 3 then .error ("U-type instruction requires 2 operands: " ++ line)
      else do
        let rd ← parse_register (parts.getD 1 "")
        let imm ← parse_immediate (parts.getD 2 "")
        pure { opcode := opcode, type := .U, rd := some (rd : ℤ), imm := some imm }

/-- The `LA` expansion step of `Assembler._first_pass` (src/src/assembler.py
lines 187–206): an `LA` record becomes `LUI rd, label` then
`ADDI rd, rd, label`; everything else is appended unchanged. -/
def first_pass_expand (inst : Instruction) : List Instruction :=
  if inst.opcode = "LA" then
    [{ opcode := "LUI", type := .U, rd := inst.rd, label := inst.label },
     { opcode := "ADDI", type := .I, rd := inst.rd, rs1 := inst.rd, label := inst.label }]
  else [inst]

/-- The `_second_pass` immediate for the `LUI` half of an `LA` pair
(src/src/assembler.py line 244): `(target_addr >> 12) & 0xFFFFF`. -/
def la_hi (target_addr : ℕ) : ℕ := (target_addr >>> 12) &&& 0xFFFFF

/-- The `_second_pass` immediate for the `ADDI` half of an `LA` pair
(src/src/assembler.py line 258): `target_addr & 0xFFF`. -/
def la_lo (target_addr : ℕ) : ℕ := target_addr &&& 0xFFF

/-! ### src/src/cpu.py — numeric helpers -/

/-- The `CPU.sign_extend` (src/src/cpu.py): sign-extend a `bits`-wide value to a
32-bit pattern.  Python's `~mask & 0xFFFFFFFF` equals `0xFFFFFFFF ^^^ mask`
for `mask ≤ 0xFFFFFFFF`. -/
def sign_extend (value : ℕ) (bits : ℕ) : ℕ :=
  let mask := (1 <<< bits) - 1
  if value &&& (1 <<< (bits - 1)) ≠ 0 then
    (value &&& mask) ||| (0xFFFFFFFF ^^^ mask)
  else
    value &&& mask

/-- The `CPU.to_signed` (src/src/cpu.py): 32-bit pattern to signed value; the
Python sign test `value & 0x80000000` is the bit-31 test. -/
def to_signed (value : ℕ) : ℤ :=
  if value &&& 0x80000000 ≠ 0 then (value : ℤ) - 0x100000000 else (value : ℤ)

/-- The `CPU.to_unsigned` (src/src/cpu.py): Python `value & 0xFFFFFFFF` on an
arbitrary-precision signed int is the Euclidean remainder mod `2^32`. -/
def to_unsigned (value : ℤ) : ℕ := (value % 0x100000000).toNat

/-! ### src/src/vm.py — execution fragments used by the claims -/

/-- The `MUL` branch of `VirtualMachine._execute_r_type`: low 32 bits of the
signed product (`product & 0xFFFFFFFF`). -/
def execMUL (rs1_val rs2_val : ℕ) : ℕ :=
  to_unsigned (to_signed rs1_val * to_signed rs2_val)

/-- The `DIV` branch of `VirtualMachine._execute_r_type` (src/src/vm.py lines
392–405).  Python computes `int(signed_rs1 / signed_rs2)`: float division
truncated toward zero, which is exact truncating division (`Int.tdiv`)
whenever both operands fit in 32 bits, since the quotient's distance to the
nearest integer is at least `1/|b| > |a/b| * 2^-53`. -/
def execDIV (rs1_val rs2_val : ℕ) : ℕ :=
  let signed_rs1 := to_signed rs1_val
  let signed_rs2 := to_signed rs2_val
  if signed_rs2 = 0 then 0xFFFFFFFF
  else if signed_rs1 = -2147483648 ∧ signed_rs2 = -1 then 0x80000000
  else to_unsigned (signed_rs1.tdiv signed_rs2)

/-- The `REM` branch of `VirtualMachine._execute_r_type` (src/src/vm.py lines
413–427): `remainder = signed_rs1 - quotient * signed_rs2` with the same
truncated quotient as `DIV`. -/
def execREM (rs1_val rs2_val : ℕ) : ℕ :=
  let signed_rs1 := to_signed rs1_val
  let signed_rs2 := to_signed rs2_val
  if signed_rs2 = 0 then rs1_val
  else if signed_rs1 = -2147483648 ∧ signed_rs2 = -1 then 0
  else
    let quotient := signed_rs1.tdiv signed_rs2
    to_unsigned (signed_rs1 - quotient * signed_rs2)

/-- The `LUI` execution (`_execute_u_type`): `(inst.imm & 0xFFFFF) << 12`, then
the `& 0xFFFFFFFF` mask of `CPU.write_register`.  `inst.imm & 0xFFFFF` on a
Python int is the Euclidean remainder mod `2^20`. -/
def execLUI_result (imm : ℤ) : ℕ :=
  (((imm % 0x100000).toNat) <<< 12) &&& 0xFFFFFFFF

/-- The `ADDI` execution (`_execute_i_type`): the stored immediate is reduced by
`inst.imm & 0xFFF` (Euclidean mod `2^12`), sign-extended from 12 bits, added
to `rs1`, and masked by `CPU.write_register`. -/
def execADDI_result (rs1_val : ℕ) (imm : ℤ) : ℕ :=
  (rs1_val + sign_extend (imm % 0x1000).toNat 12) &&& 0xFFFFFFFF

/-- Executing the second-pass-resolved `LA` pair for a label bound to
address `A`: `LUI rd, la_hi A` then `ADDI rd, rd, la_lo A` (rd reads back
the LUI result). -/
def la_exec (A : ℕ) : ℕ :=
  execADDI_result (execLUI_result (la_hi A)) (la_lo A)

/-! ### src/src/cpu.py — CSR state and interrupt entry -/

/-- The `mstatus` machine-interrupt-enable bit (src/src/cpu.py `MSTATUS_MIE`). -/
def MSTATUS_MIE : ℕ := 0x08

/-- The CPU state touched by the interrupt machinery: PC, the six CSRs held
in the `csr` dictionary, and the cached `interrupt_enabled` flag
(src/src/cpu.py `CPU.__init__`). -/
structure CPU where
  pc : ℕ
  mstatus : ℕ
  mie : ℕ
  mtvec : ℕ
  mepc : ℕ
  mcause : ℕ
  mip : ℕ
  interrupt_enabled : Bool
deriving DecidableEq, Repr

/-- The `CPU.disable_interrupts`: Python `mstatus &= ~MSTATUS_MIE` on a
non-negative int clears bit 3, i.e. subtracts the bit-3 component; the
cached flag is set to `False`. -/
def CPU.disable_interrupts (c : CPU) : CPU :=
  { c with mstatus := c.mstatus - (c.mstatus &&& MSTATUS_MIE), interrupt_enabled := false }

/-- The `CPU.enter_interrupt` (src/src/cpu.py lines 394–413): save PC in mepc,
save the cause, disable interrupts, jump to `mtvec & 0xFFFFFFFF`.  The four
updates happen inside one Python call with no instruction boundary. -/
def CPU.enter_interrupt (c : CPU) (cause : ℕ) : CPU :=
  let c1 := { c with mepc := c.pc }
  let c2 := { c1 with mcause := cause }
  let c3 := c2.disable_interrupts
  { c3 with pc := c3.mtvec &&& 0xFFFFFFFF }

/-! ### src/src/timer.py — the cycle-based timer -/

namespace Timer

/-- Control-register bit masks (src/src/timer.py). -/
def CTRL_ENABLE : ℕ := 0x01

/-- Bit 1: 0 = one-shot, 1 = periodic. -/
def CTRL_MODE : ℕ := 0x02

/-- Bit 2: interrupt pending (write-1-to-clear through `write_control`). -/
def CTRL_INT_PENDING : ℕ := 0x04

/-- Bit 3: auto-reload the counter on a periodic fire. -/
def CTRL_AUTO_RELOAD : ℕ := 0x08

end Timer

/-- Timer hardware state (src/src/timer.py `Timer.__init__`). -/
structure Timer where
  counter : ℕ
  compare : ℕ
  control : ℕ
  prescaler : ℕ
  prescaler_counter : ℕ
  interrupt_pending : Bool
deriving DecidableEq, Repr

/-- The `Timer.reset` / initial state. -/
def Timer.init : Timer :=
  { counter := 0, compare := 0, control := 0, prescaler := 1,
    prescaler_counter := 0, interrupt_pending := false }

/-- The `Timer.tick` (src/src/timer.py lines 39–77), returning the updated state
and the interrupt flag.  Python `self.control &= ~self.CTRL_ENABLE` clears
bit 0, modelled as subtracting the bit-0 component. -/
def Timer.tick (t : Timer) : Timer × Bool :=
  if t.control &&& Timer.CTRL_ENABLE = 0 then (t, false)
  else
    let pc := t.prescaler_counter + 1
    if pc < t.prescaler then ({ t with prescaler_counter := pc }, false)
    else
      let t1 := { t with prescaler_counter := 0 }
      let counter := (t1.counter + 1) % 0x100000000
      let t2 := { t1 with counter := counter }
      if counter ≥ t2.compare ∧ t2.compare > 0 then
        let t3 := { t2 with control := t2.control ||| Timer.CTRL_INT_PENDING,
                            interrupt_pending := true }
        let is_periodic := t3.control &&& Timer.CTRL_MODE ≠ 0
        let auto_reload := t3.control &&& Timer.CTRL_AUTO_RELOAD ≠ 0
        if is_periodic ∧ auto_reload then ({ t3 with counter := 0 }, true)
        else if ¬ is_periodic then
          ({ t3 with control := t3.control - (t3.control &&& Timer.CTRL_ENABLE) }, true)
        else (t3, true)
      else (t2, false)

/-- The `Timer.write_counter`. -/
def Timer.write_counter (t : Timer) (value : ℕ) : Timer :=
  { t with counter := value % 0x100000000 }

/-- The `Timer.write_compare`. -/
def Timer.write_compare (t : Timer) (value : ℕ) : Timer :=
  { t with compare := value % 0x100000000 }

/-- The `Timer.write_control` (src/src/timer.py lines 99–110): write-1-to-clear
for the pending bit, then the remaining bits are replaced and masked to
4 bits while the (possibly just cleared) pending bit is preserved. -/
def Timer.write_control (t : Timer) (value : ℕ) : Timer :=
  let t1 :=
    if value &&& Timer.CTRL_INT_PENDING ≠ 0 then
      { t with control := t.control - (t.control &&& Timer.CTRL_INT_PENDING),
               interrupt_pending := false }
    else t
  let value_masked := value - (value &&& Timer.CTRL_INT_PENDING)
  let current_pending := t1.control &&& Timer.CTRL_INT_PENDING
  { t1 with control := (value_masked ||| current_pending) &&& 0x0F }

/-- The `Timer.write_prescaler`: minimum 1. -/
def Timer.write_prescaler (t : Timer) (value : ℕ) : Timer :=
  { t with prescaler := max 1 (value % 0x100000000) }

/-- The `Timer.read_status`: bit 0 = running, bit 1 = interrupt pending. -/
def Timer.read_status (t : Timer) : ℕ :=
  (if t.control &&& Timer.CTRL_ENABLE ≠ 0 then 1 else 0) +
  (if t.interrupt_pending then 2 else 0)

/-! ### src/src/realtime_timer.py — register state only

The real-time timer's `check`/`write_control` consult `time.perf_counter()`;
the wall-clock fields (`last_tick_time`, `start_time`) are not modelled — no
claim mentions them — but all memory-mapped register accesses below are. -/

/-- Register state of `RealTimeTimer` (src/src/realtime_timer.py). -/
structure RTTimer where
  counter : ℕ
  frequency : ℕ
  control : ℕ
  compare : ℕ
  interrupt_pending : Bool
deriving DecidableEq, Repr

/-- The `RealTimeTimer.reset` / initial register state. -/
def RTTimer.init : RTTimer :=
  { counter := 0, frequency := 1, control := 0, compare := 0, interrupt_pending := false }

/-- The `RealTimeTimer.write_counter`. -/
def RTTimer.write_counter (t : RTTimer) (value : ℕ) : RTTimer :=
  { t with counter := value % 0x100000000 }

/-- The `RealTimeTimer.write_frequency`: clamped to [1, 1000]. -/
def RTTimer.write_frequency (t : RTTimer) (value : ℕ) : RTTimer :=
  { t with frequency := max 1 (min 1000 (value % 0x100000000)) }

/-- The `RealTimeTimer.write_control`: same write-1-to-clear scheme as the
cycle timer (the wall-clock re-initialisation touches only the unmodelled
timing fields). -/
def RTTimer.write_control (t : RTTimer) (value : ℕ) : RTTimer :=
  let t1 :=
    if value &&& Timer.CTRL_INT_PENDING ≠ 0 then
      { t with control := t.control - (t.control &&& Timer.CTRL_INT_PENDING),
               interrupt_pending := false }
    else t
  let value_masked := value - (value &&& Timer.CTRL_INT_PENDING)
  let current_pending := t1.control &&& Timer.CTRL_INT_PENDING
  { t1 with control := (value_masked ||| current_pending) &&& 0x0F }

/-- The `RealTimeTimer.write_compare`. -/
def RTTimer.write_compare (t : RTTimer) (value : ℕ) : RTTimer :=
  { t with compare := value % 0x100000000 }

/-- The `RealTimeTimer.read_status`. -/
def RTTimer.read_status (t : RTTimer) : ℕ :=
  (if t.control &&& Timer.CTRL_ENABLE ≠ 0 then 1 else 0) +
  (if t.interrupt_pending then 2 else 0)

/-! ### src/src/display.py — the parts reachable from the memory bus -/

/-- Display state (src/src/display.py `Display.__init__`); the 25×80 char
grid is a total function, row then column. -/
structure Display where
  buffer : ℕ → ℕ → Char
  cursor_x : ℕ
  cursor_y : ℕ
  current_page : ℕ
  mode : ℕ
  auto_scroll : Bool
  dirty : Bool

/-- Initial display: blank grid, cursor at origin. -/
def Display.init : Display :=
  { buffer := fun _ _ => ' ', cursor_x := 0, cursor_y := 0,
    current_page := 0, mode := 0, auto_scroll := true, dirty := true }

/-- Point update of the character grid (`self.buffer[y][x] = c`). -/
def bufWrite (b : ℕ → ℕ → Char) (y x : ℕ) (c : Char) : ℕ → ℕ → Char :=
  fun r cl => if r = y ∧ cl = x then c else b r cl

/-- The tab loop inside `Display.write_char`: `spaces` iterations of
"if cursor_x < COLS: write a space at the cursor and advance". -/
def Display.writeTab : ℕ → Display → Display
  | 0, d => d
  | n + 1, d =>
    let d' :=
      if d.cursor_x < 80 then
        { d with buffer := bufWrite d.buffer d.cursor_y d.cursor_x ' ',
                 cursor_x := d.cursor_x + 1 }
      else d
    Display.writeTab n d'

/-- The `Display.write_char` (src/src/display.py lines 31–59).  Out-of-range
positions are ignored; newline/CR/backspace/tab move the cursor; printable
ASCII lands at `(x, y)` and marks the display dirty. -/
def Display.write_char (d : Display) (x y char : ℕ) : Display :=
  if x < 80 ∧ y < 25 then
    if char = 0x0A then
      { d with cursor_y := d.cursor_y + 1, cursor_x := 0 }
    else if char = 0x0D then
      { d with cursor_x := 0 }
    else if char = 0x08 then
      if d.cursor_x > 0 then
        { d with cursor_x := d.cursor_x - 1,
                 buffer := bufWrite d.buffer d.cursor_y (d.cursor_x - 1) ' ' }
      else d
    else if char = 0x09 then
      Display.writeTab (4 - d.cursor_x % 4) d
    else if 32 ≤ char ∧ char ≤ 126 then
      { d with buffer := bufWrite d.buffer y x (Char.ofNat char), dirty := true }
    else d
  else d

/-- The `Display.clear`. -/
def Display.clear (d : Display) : Display :=
  { d with buffer := fun _ _ => ' ', cursor_x := 0, cursor_y := 0, dirty := true }

/-! ### src/src/memory.py -/

/-- The two memory exception classes: `MemoryAccessError` is raised both for
out-of-bounds and for unaligned accesses (we keep the two call sites apart),
`MemoryProtectionError` for writes into the protected text segment. -/
inductive MemErr where
  | outOfBounds | unaligned | protection
deriving DecidableEq, Repr

namespace Memory

/-- The `Memory.SIZE = 1024 * 1024`. -/
def SIZE : ℤ := 1024 * 1024

/-- Text segment bounds. -/
def TEXT_START : ℤ := 0x00000

/-- End of the text segment (inclusive). -/
def TEXT_END : ℤ := 0x0FFFF

/-- Memory-mapped I/O region (inclusive). -/
def MMIO_START : ℤ := 0xF0000

/-- End of the memory-mapped I/O region. -/
def MMIO_END : ℤ := 0xFFFFF

/-- Display character buffer range (inclusive). -/
def DISPLAY_BUFFER_START : ℤ := 0xF0000

/-- End of the display character buffer. -/
def DISPLAY_BUFFER_END : ℤ := 0xF7CFF

/-- Display control register range (inclusive). -/
def DISPLAY_CONTROL_START : ℤ := 0xF7D00

/-- End of the display control registers. -/
def DISPLAY_CONTROL_END : ℤ := 0xF7D7F

/-- Display control register addresses. -/
def CTRL_PAGE : ℤ := 0xF7D00

/-- Cursor column register. -/
def CTRL_CURSOR_X : ℤ := 0xF7D01

/-- Cursor row register. -/
def CTRL_CURSOR_Y : ℤ := 0xF7D02

/-- Display mode register. -/
def CTRL_MODE : ℤ := 0xF7D03

/-- Auto-scroll register. -/
def CTRL_SCROLL : ℤ := 0xF7D04

/-- Clear-screen register. -/
def CTRL_CLEAR : ℤ := 0xF7D05

/-- Cycle-based timer registers. -/
def TIMER_COUNTER : ℤ := 0xF7E00

/-- Timer compare register. -/
def TIMER_COMPARE : ℤ := 0xF7E04

/-- Timer control register. -/
def TIMER_CONTROL : ℤ := 0xF7E08

/-- Timer prescaler register. -/
def TIMER_PRESCALER : ℤ := 0xF7E0C

/-- Timer status register (end of the cycle-timer range). -/
def TIMER_STATUS : ℤ := 0xF7E10

/-- Real-time timer registers. -/
def RT_TIMER_COUNTER : ℤ := 0xF7E20

/-- RT timer frequency register. -/
def RT_TIMER_FREQUENCY : ℤ := 0xF7E24

/-- RT timer control register. -/
def RT_TIMER_CONTROL : ℤ := 0xF7E28

/-- RT timer status register. -/
def RT_TIMER_STATUS : ℤ := 0xF7E2C

/-- RT timer compare register (end of the RT-timer range). -/
def RT_TIMER_COMPARE : ℤ := 0xF7E30

end Memory

/-- Memory state (src/src/memory.py `Memory.__init__`): the backing
`bytearray(SIZE)` as a total byte function, the optional device references
and the text-protection flag. -/
structure Memory where
  data : ℕ → ℕ
  display : Option Display
  timer : Option Timer
  rt_timer : Option RTTimer
  protect_text : Bool

/-- A fresh memory as the `VirtualMachine` constructor builds it: zeroed
bytes, all three devices attached. -/
def Memory.initWithDevices (protect : Bool) : Memory :=
  { data := fun _ => 0, display := some Display.init, timer := some Timer.init,
    rt_timer := some RTTimer.init, protect_text := protect }

/-- The `Memory._handle_display_write` for one of the four bytes of a word:
non-zero bytes are routed to `write_char` at the buffer-offset position. -/
def Memory.display_write_piece (d : Display) (offset value i : ℕ) : Display :=
  let byte_val := (value >>> (i * 8)) &&& 0xFF
  if byte_val ≠ 0 then
    let char_offset := offset + i
    d.write_char (char_offset % 80) ((char_offset / 80) % 25) byte_val
  else d

/-- The `Memory._handle_display_write` (src/src/memory.py lines 170–185): no-op
without a display, else each of the four little-endian bytes in turn. -/
def Memory.handle_display_write (m : Memory) (address : ℤ) (value : ℕ) : Memory :=
  match m.display with
  | none => m
  | some d =>
    let offset := (address - Memory.DISPLAY_BUFFER_START).toNat
    let d := Memory.display_write_piece d offset value 0
    let d := Memory.display_write_piece d offset value 1
    let d := Memory.display_write_piece d offset value 2
    let d := Memory.display_write_piece d offset value 3
    { m with display := some d }

/-- The `Memory._handle_control_register_write` (src/src/memory.py lines
187–203). -/
def Memory.handle_control_register_write (m : Memory) (address : ℤ) (value : ℕ) : Memory :=
  match m.display with
  | none => m
  | some d =>
    let d' :=
      if address = Memory.CTRL_PAGE then { d with current_page := value &&& 0x0F }
      else if address = Memory.CTRL_CURSOR_X then { d with cursor_x := value % 80 }
      else if address = Memory.CTRL_CURSOR_Y then { d with cursor_y := value % 25 }
      else if address = Memory.CTRL_MODE then { d with mode := value }
      else if address = Memory.CTRL_SCROLL then { d with auto_scroll := value ≠ 0 }
      else if address = Memory.CTRL_CLEAR then d.clear
      else d
    { m with display := some d' }

/-- The `Memory._handle_timer_write` (src/src/memory.py lines 248–262),
assuming the timer is attached (the caller checked). -/
def Memory.handle_timer_write (m : Memory) (address : ℤ) (value : ℕ) : Memory :=
  match m.timer with
  | none => m
  | some t =>
    let t' :=
      if address = Memory.TIMER_COUNTER then t.write_counter value
      else if address = Memory.TIMER_COMPARE then t.write_compare value
      else if address = Memory.TIMER_CONTROL then t.write_control value
      else if address = Memory.TIMER_PRESCALER then t.write_prescaler value
      else t
    { m with timer := some t' }

/-- The `Memory._handle_rt_timer_write` (src/src/memory.py lines 279–288). -/
def Memory.handle_rt_timer_write (m : Memory) (address : ℤ) (value : ℕ) : Memory :=
  match m.rt_timer with
  | none => m
  | some t =>
    let t' :=
      if address = Memory.RT_TIMER_COUNTER then t.write_counter value
      else if address = Memory.RT_TIMER_FREQUENCY then t.write_frequency value
      else if address = Memory.RT_TIMER_CONTROL then t.write_control value
      else if address = Memory.RT_TIMER_COMPARE then t.write_compare value
      else t
    { m with rt_timer := some t' }

/-- The `Memory._handle_timer_read` (src/src/memory.py lines 233–246). -/
def Memory.handle_timer_read (t : Timer) (address : ℤ) : ℕ :=
  if address = Memory.TIMER_COUNTER then t.counter
  else if address = Memory.TIMER_COMPARE then t.compare
  else if address = Memory.TIMER_CONTROL then t.control
  else if address = Memory.TIMER_PRESCALER then t.prescaler
  else if address = Memory.TIMER_STATUS then t.read_status
  else 0

/-- The `Memory._handle_rt_timer_read` (src/src/memory.py lines 264–277). -/
def Memory.handle_rt_timer_read (t : RTTimer) (address : ℤ) : ℕ :=
  if address = Memory.RT_TIMER_COUNTER then t.counter
  else if address = Memory.RT_TIMER_FREQUENCY then t.frequency
  else if address = Memory.RT_TIMER_CONTROL then t.control
  else if address = Memory.RT_TIMER_STATUS then t.read_status
  else if address = Memory.RT_TIMER_COMPARE then t.compare
  else 0

/-- The `Memory.read_byte`: `_check_bounds(address, 1)` then the raw byte. -/
def Memory.read_byte (m : Memory) (address : ℤ) : Except MemErr ℕ :=
  if address < 0 ∨ address + 1 > Memory.SIZE then .error .outOfBounds
  else .ok (m.data address.toNat)

/-- The `Memory.write_byte` (src/src/memory.py lines 108–118): bounds check,
text-protection check, then `data[address] = value & 0xFF` — no MMIO
dispatch of any kind. -/
def Memory.write_byte (m : Memory) (address : ℤ) (value : ℕ) : Except MemErr Memory :=
  if address < 0 ∨ address + 1 > Memory.SIZE then .error .outOfBounds
  else if m.protect_text = true ∧ Memory.TEXT_START ≤ address ∧ address ≤ Memory.TEXT_END then
    .error .protection
  else .ok { m with data := fun i => if i = address.toNat then value % 256 else m.data i }

/-- The `Memory.read_word` (src/src/memory.py lines 120–135): bounds and
alignment checks, timer-register dispatch, else the little-endian load. -/
def Memory.read_word (m : Memory) (address : ℤ) : Except MemErr ℕ :=
  if address < 0 ∨ address + 4 > Memory.SIZE then .error .outOfBounds
  else if address % 4 ≠ 0 then .error .unaligned
  else
    match m.timer, m.rt_timer with
    | some t, _ =>
      if Memory.TIMER_COUNTER ≤ address ∧ address ≤ Memory.TIMER_STATUS then
        .ok (Memory.handle_timer_read t address)
      else
        match m.rt_timer with
        | some rt =>
          if Memory.RT_TIMER_COUNTER ≤ address ∧ address ≤ Memory.RT_TIMER_COMPARE then
            .ok (Memory.handle_rt_timer_read rt address)
          else
            .ok (m.data address.toNat + m.data (address.toNat + 1) * 0x100 +
                 m.data (address.toNat + 2) * 0x10000 + m.data (address.toNat + 3) * 0x1000000)
        | none =>
          .ok (m.data address.toNat + m.data (address.toNat + 1) * 0x100 +
               m.data (address.toNat + 2) * 0x10000 + m.data (address.toNat + 3) * 0x1000000)
    | none, some rt =>
      if Memory.RT_TIMER_COUNTER ≤ address ∧ address ≤ Memory.RT_TIMER_COMPARE then
        .ok (Memory.handle_rt_timer_read rt address)
      else
        .ok (m.data address.toNat + m.data (address.toNat + 1) * 0x100 +
             m.data (address.toNat + 2) * 0x10000 + m.data (address.toNat + 3) * 0x1000000)
    | none, none =>
      .ok (m.data address.toNat + m.data (address.toNat + 1) * 0x100 +
           m.data (address.toNat + 2) * 0x10000 + m.data (address.toNat + 3) * 0x1000000)

/-- The final little-endian store of `write_word`: `value & 0xFFFFFFFF`
split into four bytes. -/
def Memory.raw_write_word (m : Memory) (address : ℤ) (value : ℕ) : Memory :=
  let v := value % 0x100000000
  let a := address.toNat
  { m with data := fun i =>
      if i = a then v &&& 0xFF
      else if i = a + 1 then (v >>> 8) &&& 0xFF
      else if i = a + 2 then (v >>> 16) &&& 0xFF
      else if i = a + 3 then (v >>> 24) &&& 0xFF
      else m.data i }

/-- The `Memory.write_word` (src/src/memory.py lines 137–168): bounds,
alignment and text-protection checks, then the MMIO dispatch chain.  Only
the two timer branches `return` before the raw store; the display branches
fall through to it. -/
def Memory.write_word (m : Memory) (address : ℤ) (value : ℕ) : Except MemErr Memory :=
  if address < 0 ∨ address + 4 > Memory.SIZE then .error .outOfBounds
  else if address % 4 ≠ 0 then .error .unaligned
  else if m.protect_text = true ∧ Memory.TEXT_START ≤ address ∧ address ≤ Memory.TEXT_END then
    .error .protection
  else if Memory.DISPLAY_BUFFER_START ≤ address ∧ address ≤ Memory.DISPLAY_BUFFER_END then
    .ok ((m.handle_display_write address value).raw_write_word address value)
  else if Memory.DISPLAY_CONTROL_START ≤ address ∧ address ≤ Memory.DISPLAY_CONTROL_END then
    .ok ((m.handle_control_register_write address value).raw_write_word address value)
  else if m.timer.isSome = true ∧ Memory.TIMER_COUNTER ≤ address ∧ address ≤ Memory.TIMER_STATUS then
    .ok (m.handle_timer_write address value)
  else if m.rt_timer.isSome = true ∧ Memory.RT_TIMER_COUNTER ≤ address ∧ address ≤ Memory.RT_TIMER_COMPARE then
    .ok (m.handle_rt_timer_write address value)
  else .ok (m.raw_write_word address value)

/-! ### Concrete states used by witness and counterexample theorems -/

/-- A CPU about to take a trap: PC 0x40, mstatus.MIE set, mtvec 0x10. -/
def demoCPU : CPU :=
  { pc := 0x40, mstatus := 9, mie := 0x80, mtvec := 0x10, mepc := 0, mcause := 0,
    mip := 0, interrupt_enabled := true }

/-- A disabled timer. -/
def demoTimerDisabled : Timer := { Timer.init with compare := 10 }

/-- An enabled timer whose prescaler has not yet expired. -/
def demoTimerPrescale : Timer := { Timer.init with control := 1, prescaler := 5, compare := 10 }

/-- An enabled timer that fires on the next tick. -/
def demoTimerFire : Timer := { Timer.init with control := 1, compare := 1 }

/-- A fresh VM memory (all devices attached, no text protection). -/
def demoMemory : Memory := Memory.initWithDevices false

/-- A fresh VM memory with text protection enabled. -/
def demoMemoryProtected : Memory := Memory.initWithDevices true

/-! ### Bit-twiddling bridge lemmas -/

/-- Single-bit AND as a divisibility test: `x &&& 2^k` keeps exactly the
`2^k` component of `x`. -/
theorem nat_and_two_pow_div_mod (x k : ℕ) : x &&& 2 ^ k = x / 2 ^ k % 2 * 2 ^ k := by
  rw [Nat.and_two_pow, Nat.testBit_to_div_mod]
  by_cases h : x / 2 ^ k % 2 = 1
  · rw [h]; simp
  · have h0 : x / 2 ^ k % 2 = 0 := by omega
    rw [h0]; simp

/-- The `x &&& 0xFFF` is `x % 2^12`. -/
theorem and_fff (x : ℕ) : x &&& 0xFFF = x % 4096 := by
  have := Nat.and_pow_two_sub_one_eq_mod x 12
  norm_num at this
  exact this

/-- The `x &&& 0xFFFFF` is `x % 2^20`. -/
theorem and_fffff (x : ℕ) : x &&& 0xFFFFF = x % 1048576 := by
  have := Nat.and_pow_two_sub_one_eq_mod x 20
  norm_num at this
  exact this

/-- The `x &&& 0xFFFFFFFF` is `x % 2^32`. -/
theorem and_ffffffff (x : ℕ) : x &&& 0xFFFFFFFF = x % 4294967296 := by
  have := Nat.and_pow_two_sub_one_eq_mod x 32
  norm_num at this
  exact this

/-- Bit 11 as arithmetic. -/
theorem and_bit11 (x : ℕ) : x &&& 2048 = x / 2048 % 2 * 2048 := by
  have := nat_and_two_pow_div_mod x 11
  norm_num at this
  exact this

/-- Bit 31 as arithmetic. -/
theorem and_bit31 (x : ℕ) : x &&& 0x80000000 = x / 0x80000000 % 2 * 0x80000000 := by
  have := nat_and_two_pow_div_mod x 31
  norm_num at this
  exact this

/-! ### Claim C1 -/

/-- C1: the spec's mnemonic table lists MUL, DIV, DIVU, REM, REMU and WFI
as assemblable, but `INSTRUCTION_SET` (src/src/instruction.py) lacks all
six, so `_parse_instruction` raises its unknown-mnemonic `AssemblerError`
on syntactically well-formed uses of each of them — while a well-formed
`ADD` still parses as R-type and the execution engine (`_execute_r_type`)
does implement MUL.  This refutes the claim as stated: the code contradicts
the spec, vm.py, and the repository's own tests, which assemble these
mnemonics. -/
theorem m_extension_and_wfi_rejected_by_assembler :
    parse_instruction_line "MUL x1, x2, x3" = .error "Unknown instruction: MUL" ∧
    parse_instruction_line "DIV x1, x2, x3" = .error "Unknown instruction: DIV" ∧
    parse_instruction_line "DIVU x1, x2, x3" = .error "Unknown instruction: DIVU" ∧
    parse_instruction_line "REM x1, x2, x3" = .error "Unknown instruction: REM" ∧
    parse_instruction_line "REMU x1, x2, x3" = .error "Unknown instruction: REMU" ∧
    parse_instruction_line "WFI" = .error "Unknown instruction: WFI" ∧
    (parse_instruction_line "ADD x1, x2, x3").map Instruction.type = .ok .R ∧
    execMUL 6 7 = 42 := by
  refine ⟨rfl, rfl, rfl, rfl, rfl, rfl, rfl, by decide⟩

/-! ### Claim C3 -/

/-- C3: the spec says the assembler accepts the pseudo-instructions LA, J,
CALL and RET and expands them, but none of the four mnemonics is in
`INSTRUCTION_SET`, so `_parse_instruction` raises its unknown-mnemonic
`AssemblerError` for each — the `LA`-expansion code in `_first_pass` is
unreachable.  This refutes the claim as stated: the repository's own unit
tests (test_la_pseudo_instruction.py, test_j_pseudo_instruction.py, the
CALL/RET tests in test_assembler.py) assemble all four. -/
theorem pseudo_instructions_rejected_by_assembler :
    parse_instruction_line "LA x10, msg" = .error "Unknown instruction: LA" ∧
    parse_instruction_line "J loop" = .error "Unknown instruction: J" ∧
    parse_instruction_line "CALL helper" = .error "Unknown instruction: CALL" ∧
    parse_instruction_line "RET" = .error "Unknown instruction: RET" := by
  refine ⟨rfl, rfl, rfl, rfl⟩

/-! ### Claim C5 -/

/-- C5: the claim says every RISC-V ABI register name (including t0–t6,
s0–s11, a0–a7) is accepted by the assembler's `parse_register`; in fact its
alias table only holds zero/ra/sp/gp/tp/fp/s0, so t0, s1 and a0 (used by
the repository's own tests through the assembler) raise `ValueError`, while
x-form names, bare indices and the seven listed aliases do resolve,
case-insensitively.  This refutes the claim as stated. -/
theorem abi_register_names_rejected_by_parse_register :
    parse_register "a0" = .error "Invalid register: a0" ∧
    parse_register "t0" = .error "Invalid register: t0" ∧
    parse_register "s1" = .error "Invalid register: s1" ∧
    parse_register "x5" = .ok 5 ∧
    parse_register "X31" = .ok 31 ∧
    parse_register "17" = .ok 17 ∧
    parse_register "zero" = .ok 0 ∧
    parse_register "RA" = .ok 1 ∧
    parse_register "SP" = .ok 2 ∧
    parse_register "gp" = .ok 3 ∧
    parse_register "tp" = .ok 4 ∧
    parse_register "fp" = .ok 8 ∧
    parse_register "s0" = .ok 8 := by
  refine ⟨rfl, rfl, rfl, rfl, rfl, rfl, rfl, rfl, rfl, rfl, rfl, rfl, rfl⟩

/-! ### Claim C4 -/

/-- C4, counterexample: for the label address `A = 0x800` (bit 11 set) the
resolved pair `LUI rd, (A >> 12) & 0xFFFFF; ADDI rd, rd, A & 0xFFF` leaves
`rd = 0xFFFFF800`, not `A`: the 12-bit ADDI immediate sign-extends
negative and no `+0x800` rounding was applied to the `%hi` part. -/
theorem la_pair_bit11_counterexample :
    la_exec 0x800 = 0xFFFFF800 ∧ la_exec 0x800 ≠ 0x800 := by
  refine ⟨by decide, by decide⟩

/-- Closed form of `la_lo`. -/
theorem la_lo_eq (A : ℕ) : la_lo A = A % 4096 := and_fff A

/-- Closed form of `la_hi`. -/
theorem la_hi_eq (A : ℕ) : la_hi A = A / 4096 % 1048576 := by
  unfold la_hi
  rw [Nat.shiftRight_eq_div_pow]
  have := and_fffff (A / 2 ^ 12)
  norm_num at this ⊢
  exact this

/-- Sign extension from 12 bits is the identity below `0x800`. -/
theorem sign_extend_12_of_lt (v : ℕ) (h : v < 2048) : sign_extend v 12 = v := by
  unfold sign_extend
  have hbit : v &&& 2048 = 0 := by
    rw [and_bit11]
    omega
  rw [if_neg (by simp [hbit])]
  have hm : (1 : ℕ) <<< 12 - 1 = 4095 := by decide
  rw [hm]
  have := and_fff v
  norm_num at this
  omega

/-- C4 (amended): the LA expansion pair loads exactly the label address
whenever the address's low 12 bits are below `0x800` (bit 11 clear) — every
memory address is below `2^20`.  When bit 11 is set the pair instead yields
`(A - 0x1000) mod 2^32`, as the counterexample shows. -/
theorem la_pair_loads_exact_address_when_bit11_clear (A : ℕ)
    (hA : A < 0x100000) (hlo : A % 0x1000 < 0x800) : la_exec A = A := by
  unfold la_exec execLUI_result execADDI_result
  rw [la_hi_eq, la_lo_eq]
  have e1 : (((A / 4096 % 1048576 : ℕ) : ℤ) % 0x100000).toNat = A / 4096 := by omega
  have e2 : (((A % 4096 : ℕ) : ℤ) % 0x1000).toNat = A % 4096 := by omega
  rw [e1, e2, sign_extend_12_of_lt _ (by omega), Nat.shiftLeft_eq,
    and_ffffffff, and_ffffffff]
  have hdiv := Nat.div_add_mod A 4096
  norm_num
  omega

/-- Witness for the amended C4 at the concrete data-segment address
`0x10014`. -/
theorem la_pair_loads_exact_address_witness :
    la_exec 0x10014 = 0x10014 :=
  la_pair_loads_exact_address_when_bit11_clear 0x10014 (by decide) (by decide)

/-- The `x &&& 1` is the parity bit. -/
theorem and_one (x : ℕ) : x &&& 1 = x % 2 := Nat.and_one_is_mod x

/-- Bit 1 as arithmetic. -/
theorem and_two (x : ℕ) : x &&& 2 = x / 2 % 2 * 2 := by
  have := nat_and_two_pow_div_mod x 1
  norm_num at this
  exact this

/-- Bit 2 as arithmetic. -/
theorem and_four (x : ℕ) : x &&& 4 = x / 4 % 2 * 4 := by
  have := nat_and_two_pow_div_mod x 2
  norm_num at this
  exact this

/-- Bit 3 as arithmetic. -/
theorem and_eight (x : ℕ) : x &&& 8 = x / 8 % 2 * 8 := by
  have := nat_and_two_pow_div_mod x 3
  norm_num at this
  exact this

/-- Setting bit 2 does not change bit 0. -/
theorem or_four_and_one (a : ℕ) : (a ||| 4) &&& 1 = a &&& 1 := by
  rw [Nat.and_distrib_right, show (4 : ℕ) &&& 1 = 0 from rfl, Nat.or_zero]

/-- Setting bit 2 does not change bit 1. -/
theorem or_four_and_two (a : ℕ) : (a ||| 4) &&& 2 = a &&& 2 := by
  rw [Nat.and_distrib_right, show (4 : ℕ) &&& 2 = 0 from rfl, Nat.or_zero]

/-- Setting bit 2 does not change bit 3. -/
theorem or_four_and_eight (a : ℕ) : (a ||| 4) &&& 8 = a &&& 8 := by
  rw [Nat.and_distrib_right, show (4 : ℕ) &&& 8 = 0 from rfl, Nat.or_zero]

/-- After `x ||| 4`, bit 2 is set. -/
theorem or_four_and_four (a : ℕ) : (a ||| 4) &&& 4 = 4 := by
  rw [Nat.and_distrib_right, show (4 : ℕ) &&& 4 = 4 from rfl]
  have h := and_four a
  have h04 : a &&& 4 = 0 ∨ a &&& 4 = 4 := by omega
  rcases h04 with h0 | h4
  · rw [h0]
    decide
  · rw [h4]
    decide

/-- Clearing bit 0 by subtraction indeed clears bit 0. -/
theorem sub_bit0_and_one (x : ℕ) : (x - (x &&& 1)) &&& 1 = 0 := by
  rw [and_one, and_one]
  omega

/-- Clearing bit 0 by subtraction preserves bit 2. -/
theorem sub_bit0_and_four (x : ℕ) : (x - (x &&& 1)) &&& 4 = x &&& 4 := by
  rw [and_one, and_four, and_four]
  omega

/-! ### Claim C7 -/

/-- C7: entering a trap via `CPU.enter_interrupt` from a state whose
mstatus.MIE bit is 1 (and whose mtvec is a 32-bit value, as `write_csr`
guarantees) produces, in one atomic call — `VirtualMachine.step` invokes it
exactly once, with no instruction boundary inside — a state with
mepc = old PC, mcause = the cause, PC = mtvec, mstatus.MIE cleared and the
cached `interrupt_enabled` flag false; mie, mip and mtvec are untouched. -/
theorem enter_interrupt_trap_transition (c : CPU) (cause : ℕ)
    (_hmie : c.mstatus &&& MSTATUS_MIE ≠ 0) (hvec : c.mtvec < 0x100000000) :
    (c.enter_interrupt cause).mepc = c.pc ∧
    (c.enter_interrupt cause).mcause = cause ∧
    (c.enter_interrupt cause).pc = c.mtvec ∧
    (c.enter_interrupt cause).mstatus &&& MSTATUS_MIE = 0 ∧
    (c.enter_interrupt cause).interrupt_enabled = false ∧
    (c.enter_interrupt cause).mie = c.mie ∧
    (c.enter_interrupt cause).mip = c.mip ∧
    (c.enter_interrupt cause).mtvec = c.mtvec := by
  unfold CPU.enter_interrupt CPU.disable_interrupts MSTATUS_MIE
  refine ⟨rfl, rfl, ?_, ?_, rfl, rfl, rfl, rfl⟩
  · show c.mtvec &&& 0xFFFFFFFF = c.mtvec
    rw [and_ffffffff]
    omega
  · show (c.mstatus - (c.mstatus &&& 8)) &&& 8 = 0
    rw [and_eight, and_eight]
    omega

/-- Witness for C7 at a concrete pre-trap state. -/
theorem enter_interrupt_trap_transition_witness :
    (demoCPU.enter_interrupt 0x80000007).mepc = 0x40 ∧
    (demoCPU.enter_interrupt 0x80000007).pc = 0x10 ∧
    (demoCPU.enter_interrupt 0x80000007).mstatus &&& MSTATUS_MIE = 0 ∧
    (demoCPU.enter_interrupt 0x80000007).interrupt_enabled = false := by
  have h := enter_interrupt_trap_transition demoCPU 0x80000007 (by decide) (by decide)
  exact ⟨h.1, h.2.2.1, h.2.2.2.1, h.2.2.2.2.1⟩

/-! ### Claim C8 -/

/-- C8: full characterisation of `Timer.tick`.  A disabled timer is left
unchanged and returns false; an enabled one first counts the prescaler and
returns false strictly below it; on prescaler expiry the prescaler counter
resets, the counter increments mod 2^32, and the tick returns true exactly
when `compare > 0` and the new counter has reached `compare` — in which
case INT_PENDING is set, the prescaler counter is (still) 0, and for a
periodic auto-reload timer the counter restarts at 0, for a one-shot timer
ENABLE is cleared and the counter keeps its incremented value, and for a
periodic timer without auto-reload the counter keeps its incremented
value. -/
theorem timer_tick_spec (t : Timer) :
    (t.control &&& Timer.CTRL_ENABLE = 0 → t.tick = (t, false)) ∧
    (t.control &&& Timer.CTRL_ENABLE ≠ 0 → t.prescaler_counter + 1 < t.prescaler →
      t.tick = ({ t with prescaler_counter := t.prescaler_counter + 1 }, false)) ∧
    (t.control &&& Timer.CTRL_ENABLE ≠ 0 → ¬ t.prescaler_counter + 1 < t.prescaler →
      (t.tick.2 = true ↔ 0 < t.compare ∧ t.compare ≤ (t.counter + 1) % 0x100000000) ∧
      (¬ (0 < t.compare ∧ t.compare ≤ (t.counter + 1) % 0x100000000) →
        t.tick = ({ t with prescaler_counter := 0,
                           counter := (t.counter + 1) % 0x100000000 }, false)) ∧
      ((0 < t.compare ∧ t.compare ≤ (t.counter + 1) % 0x100000000) →
        t.tick.1.control &&& Timer.CTRL_INT_PENDING ≠ 0 ∧
        t.tick.1.interrupt_pending = true ∧
        t.tick.1.prescaler_counter = 0 ∧
        (t.control &&& Timer.CTRL_MODE ≠ 0 → t.control &&& Timer.CTRL_AUTO_RELOAD ≠ 0 →
          t.tick.1.counter = 0) ∧
        (t.control &&& Timer.CTRL_MODE = 0 →
          t.tick.1.control &&& Timer.CTRL_ENABLE = 0) ∧
        (t.control &&& Timer.CTRL_MODE = 0 →
          t.tick.1.counter = (t.counter + 1) % 0x100000000) ∧
        (t.control &&& Timer.CTRL_MODE ≠ 0 → t.control &&& Timer.CTRL_AUTO_RELOAD = 0 →
          t.tick.1.counter = (t.counter + 1) % 0x100000000))) := by
  refine ⟨?_, ?_, ?_⟩
  · intro h
    unfold Timer.tick
    rw [if_pos h]
  · intro h1 h2
    unfold Timer.tick
    rw [if_neg h1]
    dsimp only
    rw [if_pos h2]
  · intro h1 h2
    unfold Timer.tick
    rw [if_neg h1]
    dsimp only
    rw [if_neg h2]
    by_cases hf : (t.counter + 1) % 0x100000000 ≥ t.compare ∧ t.compare > 0
    · rw [if_pos hf]
      simp only [Timer.CTRL_MODE, Timer.CTRL_AUTO_RELOAD, Timer.CTRL_INT_PENDING,
        Timer.CTRL_ENABLE, or_four_and_two, or_four_and_eight]
      by_cases hm : t.control &&& 2 ≠ 0
      · by_cases ha8 : t.control &&& 8 ≠ 0
        · rw [if_pos ⟨hm, ha8⟩]
          refine ⟨⟨fun _ => ⟨hf.2, hf.1⟩, fun _ => rfl⟩, ?_, ?_⟩
          · intro hnf
            exact absurd ⟨hf.2, hf.1⟩ hnf
          · intro _
            refine ⟨?_, rfl, rfl, fun _ _ => rfl, ?_, ?_, ?_⟩
            · rw [or_four_and_four]
              omega
            · intro hm0
              exact absurd hm0 (by simpa using hm)
            · intro hm0
              exact absurd hm0 (by simpa using hm)
            · intro _ ha0
              exact absurd ha0 (by simpa using ha8)
        · rw [if_neg (by tauto), if_neg (by simpa using hm)]
          refine ⟨⟨fun _ => ⟨hf.2, hf.1⟩, fun _ => rfl⟩, ?_, ?_⟩
          · intro hnf
            exact absurd ⟨hf.2, hf.1⟩ hnf
          · intro _
            refine ⟨?_, rfl, rfl, ?_, ?_, ?_, fun _ _ => rfl⟩
            · rw [or_four_and_four]
              omega
            · intro _ ha8'
              exact absurd ha8' ha8
            · intro hm0
              exact absurd hm0 (by simpa using hm)
            · intro hm0
              exact absurd hm0 (by simpa using hm)
      · have hm0 : t.control &&& 2 = 0 := by simpa using hm
        rw [if_neg (by tauto), if_pos (by simpa using hm)]
        refine ⟨⟨fun _ => ⟨hf.2, hf.1⟩, fun _ => rfl⟩, ?_, ?_⟩
        · intro hnf
          exact absurd ⟨hf.2, hf.1⟩ hnf
        · intro _
          refine ⟨?_, rfl, rfl, ?_, ?_, fun _ => rfl, ?_⟩
          · rw [sub_bit0_and_four, or_four_and_four]
            omega
          · intro hm'
            exact absurd hm0 hm'
          · intro _
            exact sub_bit0_and_one _
          · intro hm'
            exact absurd hm0 hm'
    · rw [if_neg hf]
      refine ⟨?_, fun _ => rfl, ?_⟩
      · constructor
        · intro hh
          exact absurd hh (by simp)
        · intro hc
          exact absurd ⟨hc.2, hc.1⟩ hf
      · intro hc
        exact absurd ⟨hc.2, hc.1⟩ hf

/-- Witness for C8 covering the disabled, prescaler-counting and firing
branches at concrete timer states. -/
theorem timer_tick_spec_witness :
    Timer.tick demoTimerDisabled = (demoTimerDisabled, false) ∧
    Timer.tick demoTimerPrescale = ({ demoTimerPrescale with prescaler_counter := 1 }, false) ∧
    (Timer.tick demoTimerFire).2 = true ∧
    (Timer.tick demoTimerFire).1.control &&& Timer.CTRL_INT_PENDING ≠ 0 ∧
    (Timer.tick demoTimerFire).1.prescaler_counter = 0 := by
  have h1 := (timer_tick_spec demoTimerDisabled).1 (by decide)
  have h2 := (timer_tick_spec demoTimerPrescale).2.1 (by decide) (by decide)
  have h3 := (timer_tick_spec demoTimerFire).2.2 (by decide) (by decide)
  exact ⟨h1, h2, h3.1.mpr (by decide), (h3.2.2 (by decide)).1, (h3.2.2 (by decide)).2.2.1⟩

/-! ### Signed-arithmetic bridge lemmas -/

/-- Truncating remainder commutes with negation of the dividend. -/
theorem int_neg_tmod (a b : ℤ) : (-a).tmod b = -(a.tmod b) := by
  rw [Int.tmod_def, Int.tmod_def, Int.neg_tdiv]
  ring

/-- The truncating remainder is smaller than the divisor in magnitude. -/
theorem tmod_natAbs_lt (a b : ℤ) (hb : b ≠ 0) : (a.tmod b).natAbs < b.natAbs := by
  have key : ∀ a' : ℤ, 0 ≤ a' → (a'.tmod b).natAbs < b.natAbs := by
    intro a' ha'
    have hnn : 0 ≤ a'.tmod b := Int.tmod_nonneg b ha'
    rcases lt_or_gt_of_ne hb with hneg | hpos
    · have h1 : a'.tmod b = a'.tmod (-b) := by rw [Int.tmod_neg]
      have h2 : a'.tmod (-b) < -b := Int.tmod_lt_of_pos a' (by omega)
      omega
    · have h2 : a'.tmod b < b := Int.tmod_lt_of_pos a' hpos
      omega
  rcases le_or_lt 0 a with ha | ha
  · exact key a ha
  · have h0 := int_neg_tmod a b
    have := key (-a) (by omega)
    omega

/-- The truncating remainder of a non-positive dividend is non-positive. -/
theorem tmod_nonpos_of_nonpos (a b : ℤ) (ha : a ≤ 0) : a.tmod b ≤ 0 := by
  have h0 := int_neg_tmod a b
  have h1 : 0 ≤ (-a).tmod b := Int.tmod_nonneg b (by omega)
  omega

/-- Arithmetic form of `to_signed` on 32-bit inputs. -/
theorem to_signed_eq (v : ℕ) (h : v < 0x100000000) :
    to_signed v = if 0x80000000 ≤ v then (v : ℤ) - 0x100000000 else (v : ℤ) := by
  unfold to_signed
  rw [and_bit31]
  by_cases hc : 0x80000000 ≤ v
  · rw [if_pos (by omega), if_pos hc]
  · rw [if_neg (by omega), if_neg hc]

/-- The `to_signed` lands in the signed 32-bit window. -/
theorem to_signed_bounds (v : ℕ) (h : v < 0x100000000) :
    -0x80000000 ≤ to_signed v ∧ to_signed v < 0x80000000 := by
  rw [to_signed_eq v h]
  split_ifs <;> omega

/-- The `to_signed` agrees with the input modulo 2^32. -/
theorem to_signed_emod (v : ℕ) (h : v < 0x100000000) :
    to_signed v % 0x100000000 = (v : ℤ) % 0x100000000 := by
  rw [to_signed_eq v h]
  split_ifs <;> omega

/-- Casting `to_unsigned` back to `ℤ` is reduction modulo 2^32. -/
theorem to_unsigned_cast (z : ℤ) : ((to_unsigned z : ℕ) : ℤ) = z % 0x100000000 := by
  unfold to_unsigned
  omega

/-- The `to_unsigned` produces a 32-bit value. -/
theorem to_unsigned_lt (z : ℤ) : to_unsigned z < 0x100000000 := by
  unfold to_unsigned
  omega

/-- Round trip: a value in the signed window survives
`to_signed ∘ to_unsigned`. -/
theorem to_signed_to_unsigned (z : ℤ) (h1 : -0x80000000 ≤ z) (h2 : z < 0x80000000) :
    to_signed (to_unsigned z) = z := by
  rw [to_signed_eq _ (to_unsigned_lt z)]
  unfold to_unsigned
  split_ifs with hc
  · omega
  · omega

/-! ### Claim C6 -/

/-- C6: outside the divide-by-zero and overflow special cases, the DIV and
REM results reassemble the dividend both as 32-bit values
(`DIV·b + REM ≡ a mod 2^32`) and exactly over ℤ as signed values, with the
remainder smaller than the divisor in magnitude and carrying the dividend's
sign — which together say DIV is the toward-zero-rounded quotient. -/
theorem div_rem_truncated_division (x y : ℕ)
    (hx : x < 0x100000000) (hy : y < 0x100000000)
    (hbz : to_signed y ≠ 0)
    (hov : ¬ (to_signed x = -2147483648 ∧ to_signed y = -1)) :
    (execDIV x y * y + execREM x y) % 0x100000000 = x ∧
    to_signed x = to_signed (execDIV x y) * to_signed y + to_signed (execREM x y) ∧
    (to_signed (execREM x y)).natAbs < (to_signed y).natAbs ∧
    (0 ≤ to_signed x → 0 ≤ to_signed (execREM x y)) ∧
    (to_signed x ≤ 0 → to_signed (execREM x y) ≤ 0) := by
  have hdiv : execDIV x y = to_unsigned ((to_signed x).tdiv (to_signed y)) := by
    unfold execDIV
    dsimp only
    rw [if_neg hbz, if_neg hov]
  have hrem : execREM x y =
      to_unsigned (to_signed x - (to_signed x).tdiv (to_signed y) * to_signed y) := by
    unfold execREM
    dsimp only
    rw [if_neg hbz, if_neg hov]
  have hax := to_signed_bounds x hx
  have hay := to_signed_bounds y hy
  set a := to_signed x with ha
  set b := to_signed y with hb
  set q := a.tdiv b with hqdef
  set r := a - q * b with hrdef
  have hrtmod : r = a.tmod b := by
    rw [hrdef, Int.tmod_def]
    ring
  have hrabs : r.natAbs < b.natAbs := hrtmod ▸ tmod_natAbs_lt a b hbz
  have hbabs : b.natAbs ≤ 0x80000000 := by omega
  have hrsigned : to_signed (execREM x y) = r := by
    rw [hrem, to_signed_to_unsigned _ (by omega) (by omega)]
  have hqabs : q.natAbs = a.natAbs / b.natAbs := hqdef ▸ Int.natAbs_tdiv a b
  have hqrange : -0x80000000 ≤ q ∧ q < 0x80000000 := by
    have hbne : b.natAbs ≠ 0 := by omega
    rcases hcase : b.natAbs with _ | n
    · omega
    rcases n with _ | m
    · have hb1 : b = 1 ∨ b = -1 := by omega
      rcases hb1 with h1 | h1
      · have hq : q = a := by rw [hqdef, h1, Int.tdiv_one]
        omega
      · have hq : q = -a := by rw [hqdef, h1, Int.tdiv_neg, Int.tdiv_one]
        have hane : a ≠ -2147483648 := fun hae => hov ⟨hae, h1⟩
        omega
    · have h2 : a.natAbs / b.natAbs ≤ a.natAbs / 2 :=
        Nat.div_le_div_left (by omega) (by omega)
      rw [← hqabs] at h2
      omega
  have hdsigned : to_signed (execDIV x y) = q := by
    rw [hdiv, to_signed_to_unsigned _ hqrange.1 hqrange.2]
  refine ⟨?_, ?_, ?_, ?_, ?_⟩
  · have h1 : ((execDIV x y : ℕ) : ℤ) = q % 0x100000000 := by
      rw [hdiv, to_unsigned_cast]
    have h2 : ((execREM x y : ℕ) : ℤ) = r % 0x100000000 := by
      rw [hrem, to_unsigned_cast]
    have e1 : q % 0x100000000 ≡ q [ZMOD 0x100000000] := Int.emod_emod_of_dvd q dvd_rfl
    have e2 : (y : ℤ) ≡ b [ZMOD 0x100000000] := (to_signed_emod y hy).symm
    have e3 : r % 0x100000000 ≡ r [ZMOD 0x100000000] := Int.emod_emod_of_dvd r dvd_rfl
    have e4 : a ≡ (x : ℤ) [ZMOD 0x100000000] := to_signed_emod x hx
    have e5 : q % 0x100000000 * (y : ℤ) + r % 0x100000000 ≡ q * b + r [ZMOD 0x100000000] :=
      (e1.mul e2).add e3
    have e6 : q * b + r = a := by rw [hrdef]; ring
    rw [e6] at e5
    have e7 := e5.trans e4
    have e8 : (q % 0x100000000 * (y : ℤ) + r % 0x100000000) % 0x100000000 =
        (x : ℤ) % 0x100000000 := e7
    have hc : (((execDIV x y * y + execREM x y) % 0x100000000 : ℕ) : ℤ) = (x : ℤ) := by
      push_cast
      rw [h1, h2, e8, Int.emod_eq_of_lt (by omega) (by omega)]
    exact_mod_cast hc
  · rw [hdsigned, hrsigned, hrdef]
    ring
  · rw [hrsigned]
    exact hrabs
  · intro hann
    rw [hrsigned, hrtmod]
    exact Int.tmod_nonneg b hann
  · intro hanp
    rw [hrsigned, hrtmod]
    exact tmod_nonpos_of_nonpos a b hanp

/-- Witness for C6 at `a = -7`, `b = 3` (DIV = -2, REM = -1). -/
theorem div_rem_truncated_division_witness :
    (execDIV 0xFFFFFFF9 3 * 3 + execREM 0xFFFFFFF9 3) % 0x100000000 = 0xFFFFFFF9 ∧
    to_signed (execREM 0xFFFFFFF9 3) ≤ 0 := by
  have h := div_rem_truncated_division 0xFFFFFFF9 3 (by decide) (by decide)
    (by decide) (by decide)
  exact ⟨h.1, h.2.2.2.2 (by decide)⟩

/-! ### Memory-operation characterisations (helpers for C9) -/

/-- The `read_byte`: fails with OutOfBounds exactly off the byte range
`[0, SIZE)`, succeeds otherwise. -/
theorem read_byte_spec (m : Memory) (address : ℤ) :
    (m.read_byte address = .error .outOfBounds ↔ address < 0 ∨ address + 1 > Memory.SIZE) ∧
    (resultOk (m.read_byte address) = true ↔ ¬ (address < 0 ∨ address + 1 > Memory.SIZE)) := by
  unfold Memory.read_byte
  split_ifs with h
  · simp [h, resultOk]
  · simp [h, resultOk]

/-- The `write_byte`: OutOfBounds exactly off `[0, SIZE)`, then
ProtectionViolation exactly on a protected text-segment address, success
otherwise; never Unaligned. -/
theorem write_byte_spec (m : Memory) (address : ℤ) (value : ℕ) :
    (m.write_byte address value = .error .outOfBounds ↔
      address < 0 ∨ address + 1 > Memory.SIZE) ∧
    (m.write_byte address value = .error .protection ↔
      ¬ (address < 0 ∨ address + 1 > Memory.SIZE) ∧
      m.protect_text = true ∧ 0 ≤ address ∧ address ≤ 0xFFFF) ∧
    (m.write_byte address value = .error .unaligned ↔ False) ∧
    (resultOk (m.write_byte address value) = true ↔
      ¬ (address < 0 ∨ address + 1 > Memory.SIZE) ∧
      ¬ (m.protect_text = true ∧ 0 ≤ address ∧ address ≤ 0xFFFF)) := by
  unfold Memory.write_byte Memory.TEXT_START Memory.TEXT_END
  split_ifs with h1 h2
  · simp [h1, resultOk]
  · simp [h1, h2, resultOk]
  · simp [h1, h2, resultOk]

/-- The `read_word`: OutOfBounds exactly off the 4-byte range, then Unaligned
exactly on misaligned addresses, success otherwise (timer-register reads
dispatch but still succeed); never ProtectionViolation. -/
theorem read_word_spec (m : Memory) (address : ℤ) :
    (m.read_word address = .error .outOfBounds ↔ address < 0 ∨ address + 4 > Memory.SIZE) ∧
    (m.read_word address = .error .unaligned ↔
      ¬ (address < 0 ∨ address + 4 > Memory.SIZE) ∧ address % 4 ≠ 0) ∧
    (m.read_word address = .error .protection ↔ False) ∧
    (resultOk (m.read_word address) = true ↔
      ¬ (address < 0 ∨ address + 4 > Memory.SIZE) ∧ address % 4 = 0) := by
  obtain ⟨dat, disp, tim, rt, prot⟩ := m
  unfold Memory.read_word
  rcases tim with _ | t <;> rcases rt with _ | rt' <;>
    split_ifs <;> simp_all [resultOk]

/-- The `write_word`: OutOfBounds, then Unaligned, then ProtectionViolation in
that order of precedence; every MMIO dispatch branch and the raw store
succeed. -/
theorem write_word_spec (m : Memory) (address : ℤ) (value : ℕ) :
    (m.write_word address value = .error .outOfBounds ↔
      address < 0 ∨ address + 4 > Memory.SIZE) ∧
    (m.write_word address value = .error .unaligned ↔
      ¬ (address < 0 ∨ address + 4 > Memory.SIZE) ∧ address % 4 ≠ 0) ∧
    (m.write_word address value = .error .protection ↔
      ¬ (address < 0 ∨ address + 4 > Memory.SIZE) ∧ address % 4 = 0 ∧
      m.protect_text = true ∧ 0 ≤ address ∧ address ≤ 0xFFFF) ∧
    (resultOk (m.write_word address value) = true ↔
      ¬ (address < 0 ∨ address + 4 > Memory.SIZE) ∧ address % 4 = 0 ∧
      ¬ (m.protect_text = true ∧ 0 ≤ address ∧ address ≤ 0xFFFF)) := by
  unfold Memory.write_word Memory.TEXT_START Memory.TEXT_END
  split_ifs <;> simp_all [resultOk]

/-! ### Claim C9 -/

/-- C9: for every address, `read_byte`/`write_byte`/`read_word`/`write_word`
raise OutOfBounds exactly when the accessed byte range leaves
`[0, 0x100000)`; the word operations additionally raise Unaligned exactly
when the address is in bounds but not a multiple of 4; the write operations
additionally raise ProtectionViolation exactly when the earlier checks pass,
text protection is on and the address lies in `[0, 0xFFFF]`; in every other
case the operation succeeds. -/
theorem memory_error_conditions (m : Memory) (address : ℤ) (value : ℕ) :
    (m.read_byte address = .error .outOfBounds ↔ address < 0 ∨ address + 1 > Memory.SIZE) ∧
    (resultOk (m.read_byte address) = true ↔ ¬ (address < 0 ∨ address + 1 > Memory.SIZE)) ∧
    (m.write_byte address value = .error .outOfBounds ↔
      address < 0 ∨ address + 1 > Memory.SIZE) ∧
    (m.write_byte address value = .error .protection ↔
      ¬ (address < 0 ∨ address + 1 > Memory.SIZE) ∧
      m.protect_text = true ∧ 0 ≤ address ∧ address ≤ 0xFFFF) ∧
    (resultOk (m.write_byte address value) = true ↔
      ¬ (address < 0 ∨ address + 1 > Memory.SIZE) ∧
      ¬ (m.protect_text = true ∧ 0 ≤ address ∧ address ≤ 0xFFFF)) ∧
    (m.read_word address = .error .outOfBounds ↔ address < 0 ∨ address + 4 > Memory.SIZE) ∧
    (m.read_word address = .error .unaligned ↔
      ¬ (address < 0 ∨ address + 4 > Memory.SIZE) ∧ address % 4 ≠ 0) ∧
    (resultOk (m.read_word address) = true ↔
      ¬ (address < 0 ∨ address + 4 > Memory.SIZE) ∧ address % 4 = 0) ∧
    (m.write_word address value = .error .outOfBounds ↔
      address < 0 ∨ address + 4 > Memory.SIZE) ∧
    (m.write_word address value = .error .unaligned ↔
      ¬ (address < 0 ∨ address + 4 > Memory.SIZE) ∧ address % 4 ≠ 0) ∧
    (m.write_word address value = .error .protection ↔
      ¬ (address < 0 ∨ address + 4 > Memory.SIZE) ∧ address % 4 = 0 ∧
      m.protect_text = true ∧ 0 ≤ address ∧ address ≤ 0xFFFF) ∧
    (resultOk (m.write_word address value) = true ↔
      ¬ (address < 0 ∨ address + 4 > Memory.SIZE) ∧ address % 4 = 0 ∧
      ¬ (m.protect_text = true ∧ 0 ≤ address ∧ address ≤ 0xFFFF)) := by
  obtain ⟨hrb1, hrb2⟩ := read_byte_spec m address
  obtain ⟨hwb1, hwb2, _, hwb4⟩ := write_byte_spec m address value
  obtain ⟨hrw1, hrw2, _, hrw4⟩ := read_word_spec m address
  obtain ⟨hww1, hww2, hww3, hww4⟩ := write_word_spec m address value
  exact ⟨hrb1, hrb2, hwb1, hwb2, hwb4, hrw1, hrw2, hrw4, hww1, hww2, hww3, hww4⟩

/-! ### Claim C2 -/

/-- C2, counterexample: the word store of `0x41` to the display-buffer base
address `0xF0000` dispatches the byte to the display (an `A` lands in the
character grid) and then *falls through to the raw store*: the raw backing
byte at `0xF0000` afterwards holds `0x41 ≠ 0`, refuting "MMIO writes do not
modify the backing array" for the display ranges. -/
theorem mmio_display_write_hits_raw_array_counterexample :
    (demoMemory.write_word 0xF0000 0x41).map (fun m => m.data 0xF0000) = .ok 0x41 ∧
    (demoMemory.write_word 0xF0000 0x41).map (fun m => m.read_byte 0xF0000) =
      .ok (.ok 0x41) ∧
    (demoMemory.write_word 0xF0000 0x41).map
      (fun m => (m.display.map (fun d => d.buffer 0 0)).getD ' ') = .ok 'A' ∧
    (0x41 : ℕ) ≠ 0 := by
  refine ⟨by decide, by decide, by decide, by decide⟩

/-- C2 (amended): word stores into the cycle-timer register range
(`0xF7E00`–`0xF7E10`, timer attached) or the real-time-timer register range
(`0xF7E20`–`0xF7E30`, RT timer attached) return before the raw store: the
raw backing array — and the display — are left completely unchanged, so a
subsequent raw byte read still sees 0 on a fresh memory.  (Display-buffer
and display-control word stores do reach the raw array, as the
counterexample shows, so the spec sentence holds only for the timers.) -/
theorem write_word_timer_ranges_preserve_raw_bytes (m : Memory) (address : ℤ) (value : ℕ)
    (halign : address % 4 = 0)
    (hrange :
      (m.timer.isSome = true ∧
        Memory.TIMER_COUNTER ≤ address ∧ address ≤ Memory.TIMER_STATUS) ∨
      (m.rt_timer.isSome = true ∧
        Memory.RT_TIMER_COUNTER ≤ address ∧ address ≤ Memory.RT_TIMER_COMPARE)) :
    (m.write_word address value).map Memory.data = .ok m.data ∧
    (m.write_word address value).map Memory.display = .ok m.display := by
  unfold Memory.TIMER_COUNTER Memory.TIMER_STATUS Memory.RT_TIMER_COUNTER
    Memory.RT_TIMER_COMPARE at hrange
  unfold Memory.write_word
  unfold Memory.SIZE Memory.TEXT_START Memory.TEXT_END Memory.DISPLAY_BUFFER_START
    Memory.DISPLAY_BUFFER_END Memory.DISPLAY_CONTROL_START Memory.DISPLAY_CONTROL_END
    Memory.TIMER_COUNTER Memory.TIMER_STATUS Memory.RT_TIMER_COUNTER
    Memory.RT_TIMER_COMPARE
  rcases hrange with ⟨ht, h1, h2⟩ | ⟨hrt, h1, h2⟩
  · obtain ⟨t, htm⟩ := Option.isSome_iff_exists.mp ht
    rw [if_neg (by omega), if_neg (by omega),
      if_neg (by rintro ⟨_, _, h3⟩; omega),
      if_neg (by rintro ⟨h3, _⟩; omega),
      if_neg (by rintro ⟨h3, _⟩; omega),
      if_pos ⟨ht, h1, h2⟩]
    simp [Memory.handle_timer_write, htm, Except.map]
  · obtain ⟨t, htm⟩ := Option.isSome_iff_exists.mp hrt
    rw [if_neg (by omega), if_neg (by omega),
      if_neg (by rintro ⟨_, _, h3⟩; omega),
      if_neg (by rintro ⟨h3, _⟩; omega),
      if_neg (by rintro ⟨h3, _⟩; omega),
      if_neg (by rintro ⟨_, h3, _⟩; omega),
      if_pos ⟨hrt, h1, h2⟩]
    simp [Memory.handle_rt_timer_write, htm, Except.map]

/-- Witness for the amended C2: a store to the timer compare register on a
fresh memory leaves the raw byte at that address reading 0. -/
theorem write_word_timer_ranges_preserve_raw_bytes_witness :
    (demoMemory.write_word 0xF7E04 123).map Memory.data = .ok demoMemory.data ∧
    (demoMemory.write_word 0xF7E04 123).map Memory.display = .ok demoMemory.display := by
  exact write_word_timer_ranges_preserve_raw_bytes demoMemory 0xF7E04 123 (by decide)
    (Or.inl ⟨by decide, by decide, by decide⟩)

/-! ### Claim C10 -/

/-- C10: `write_byte` performs no MMIO dispatch whatsoever: for every
MMIO-range address (which is in bounds and outside the protected text
segment) it succeeds, stores `value & 0xFF` into the raw backing array at
that address, leaves every other byte alone, and leaves display, timer and
RT-timer state exactly unchanged.  SB and both halves of SH reach memory
only through `write_byte` (vm.py `_execute_s_type`), so byte-granularity
stores to display or timer addresses never touch device state. -/
theorem write_byte_mmio_no_dispatch (m : Memory) (address : ℤ) (value : ℕ)
    (h1 : Memory.MMIO_START ≤ address) (h2 : address ≤ Memory.MMIO_END) :
    (m.write_byte address value).map Memory.display = .ok m.display ∧
    (m.write_byte address value).map Memory.timer = .ok m.timer ∧
    (m.write_byte address value).map Memory.rt_timer = .ok m.rt_timer ∧
    (m.write_byte address value).map (fun m' => m'.data address.toNat) = .ok (value % 256) ∧
    (∀ i, i ≠ address.toNat →
      (m.write_byte address value).map (fun m' => m'.data i) = .ok (m.data i)) := by
  unfold Memory.MMIO_START at h1
  unfold Memory.MMIO_END at h2
  unfold Memory.write_byte
  unfold Memory.SIZE Memory.TEXT_START Memory.TEXT_END
  rw [if_neg (by omega), if_neg (by rintro ⟨_, _, h3⟩; omega)]
  refine ⟨rfl, rfl, rfl, ?_, ?_⟩
  · simp [Except.map]
  · intro i hi
    simp [Except.map, hi]

/-- Witness for C10: a byte store of `0x41` to the display-buffer base on a
fresh memory lands in the raw array and leaves the devices untouched. -/
theorem write_byte_mmio_no_dispatch_witness :
    (demoMemory.write_byte 0xF0000 0x41).map Memory.timer = .ok demoMemory.timer ∧
    (demoMemory.write_byte 0xF0000 0x41).map (fun m' => m'.data 0xF0000) = .ok 0x41 := by
  have h := write_byte_mmio_no_dispatch demoMemory 0xF0000 0x41 (by decide) (by decide)
  exact ⟨h.2.1, h.2.2.2.1⟩

end RiscVM
